import Mathlib

/-!
# mkpw: option validation and the run of `main`

A shallow embedding of `main.go` of `romantomjak/mkpw`, the command-line front of the
`go.1password.io/spg` password generator.

* `parseSeparator`, `makeSeparatorFunc`, `parseCapitalize` and `main` are translated from
  `main.go`.
* What `main.go` imports is not part of the program text: the `spg` library (its two pre-built
  separator functions, its word list and `Generate`) and the `flag` package of the standard
  library are parameters of the embedding.
* `spg.FloatE` is the library's floating point type. The program builds exactly one value of
  it, the constant `0`, so the embedding is generic in a type `F` with a zero.
-/

namespace Mkpw

/-! ## Data model -/

/-- State of the random source behind the library: the values it has still to deliver and the
number of draws made so far. A call consumes randomness exactly when it changes this state. -/
structure RandomSource where
  pending : List Nat
  draws : Nat
deriving DecidableEq, Repr

/-- The library type `spg.SFFunction`, `func() (string, FloatE)`: a call yields the separator
text and its entropy, and may advance the random source. -/
abbrev SFFunction (F : Type) : Type := RandomSource → (String × F) × RandomSource

/-- The library type `spg.CapScheme`, a string type. -/
abbrev CapScheme : Type := String

/-- Modelled from the spec: the error taxonomy of the generation engine (section 7), whose
code is in the `spg` library and not in `main.go`. -/
inductive GenerationError where
  | EmptyWordList
  | SeparatorWordConflict
  | InvalidRecipeSize
  | RandomSourceUnavailable
deriving DecidableEq, Repr

/-- A Go `error` value as `main.go` meets it: one it builds itself with
`fmt.Errorf(format, operand)`, one of the generation engine, or any other value a library
returned, known by its text. -/
inductive GoError where
  | errorf (format : String) (operand : String)
  | generation (kind : GenerationError)
  | foreign (text : String)
deriving DecidableEq, Repr

/-! ## The option parsers, `main.go` lines 89 to 161 -/

/-- The function `makeSeparatorFunc` of `main.go`: the closure returns `value, 0` and touches
nothing else. -/
def makeSeparatorFunc {F : Type} [Zero F] (value : String) : SFFunction F :=
  fun rand => ((value, 0), rand)

/-- The function `parseSeparator` of `main.go`. `SFDigits1` and `SFNone` are the functions
`spg.SFDigits1` and `spg.SFNone` the library declares; a nil function value is `none`, a nil
error is `none`. -/
def parseSeparator {F : Type} [Zero F] (SFDigits1 SFNone : SFFunction F) (separator : String) :
    Option (SFFunction F) × Option GoError :=
  if separator = "hyphen" then (some (makeSeparatorFunc "-"), none)
  else if separator = "space" then (some (makeSeparatorFunc " "), none)
  else if separator = "comma" then (some (makeSeparatorFunc ","), none)
  else if separator = "dot" then (some (makeSeparatorFunc "."), none)
  else if separator = "underscore" then (some (makeSeparatorFunc "_"), none)
  else if separator = "digit" then (some SFDigits1, none)
  else if separator = "none" then (some SFNone, none)
  else (none, some (.errorf "invalid separator: %q" separator))

/-- The function `parseCapitalize` of `main.go`: the six cases fall through to one body that
converts the name itself to a `CapScheme`. -/
def parseCapitalize (capitalize : String) : CapScheme × Option GoError :=
  if capitalize = "none" ∨ capitalize = "first" ∨ capitalize = "one" ∨ capitalize = "all"
      ∨ capitalize = "capitalize" ∨ capitalize = "random" then (capitalize, none)
  else ("", some (.errorf "invalid capitalization scheme: %q" capitalize))

/-- Results of `count` successive calls of a separator function, oldest first, with the state
of the random source after the last call. -/
def callTimes {F : Type} (f : SFFunction F) : Nat → RandomSource → List (String × F) × RandomSource
  | 0, rand => ([], rand)
  | count + 1, rand =>
    let first := f rand
    let rest := callTimes f count first.2
    (first.1 :: rest.1, rest.2)

/-! ## The usage text, `main.go` lines 12 to 34 -/

/-- The constant `usage` of `main.go`. -/
def usage : String :=
  "\nUsage: mkpw [options]\n\n  Generates a memorable, but secure password.\n\nOptions:\n\n  -size=<n>\n\tGenerate a password with <n> words (default: 5)\n\n  -separator=<class>\n\tSeparate components using <class> seperator. Can be one of: hyphen, space,\n\tcomma, period, underscore, digit, none. (default: hyphen)\n\n  -capitalize=<scheme>\n\tCapitalize password according to <scheme>. Scheme can be one of: none,\n\tfirst, all, random, one. (default: one)\n\n  -entropy\n    Show the entropy of the password recipe\n"

/-- The pieces of `text` that follow an occurrence of `marker` and run up to the next `stop`
character, in order of occurrence. -/
def fieldsAfter (marker : List Char) (stop : Char) : List Char → List (List Char)
  | [] => []
  | c :: cs =>
    if marker.isPrefixOf (c :: cs) then
      (((c :: cs).drop marker.length).takeWhile (fun x => x != stop)) :: fieldsAfter marker stop cs
    else fieldsAfter marker stop cs

/-- The names of a comma separated enumeration, white space (line breaks and tabs of the
layout included) removed. -/
def enumerated (field : List Char) : List String :=
  (field.splitOn ',').map (fun w => String.mk (w.filter (fun c => !c.isWhitespace)))

/-- The enumerations the usage text gives after the words "one of: ": the first is the list
of separator classes, the second the list of capitalization schemes. -/
def documentedChoices : List (List String) :=
  (fieldsAfter "one of: ".toList '.' usage.toList).map enumerated

/-- The defaults the usage text states, in the order `-size`, `-separator`, `-capitalize`. -/
def documentedDefaults : List String :=
  (fieldsAfter "(default: ".toList ')' usage.toList).map String.mk

/-- The separator classes the usage text documents. -/
def documentedSeparators : List String := documentedChoices.getD 0 []

/-- The capitalization schemes the usage text documents. -/
def documentedSchemes : List String := documentedChoices.getD 1 []

/-! ## The run of `main`, `main.go` lines 36 to 87 -/

/-- The four variables the flags are parsed into. `size` is a Go `int`. -/
structure Flags where
  size : Int
  separator : String
  capitalize : String
  entropy : Bool
deriving DecidableEq, Repr

/-- The defaults `main` registers the flags with (lines 42 to 45). -/
def defaultFlags : Flags :=
  { size := 5, separator := "hyphen", capitalize := "one", entropy := false }

/-- The library type `spg.Password` as `main` uses it: the text `%s` prints and the field
`Entropy`. -/
structure Password (F : Type) where
  text : String
  Entropy : F

/-- The library type `spg.WLRecipe` as `main` fills it: `NewWLRecipe(size, wl)` followed by
the assignments to `Capitalize` and `SeparatorFunc`. -/
structure WLRecipe (F : Type) where
  Length : Int
  list : List String
  Capitalize : CapScheme
  SeparatorFunc : Option (SFFunction F)

/-- An operand of a `fmt` call in `main`. -/
inductive Operand (F : Type) where
  | error (e : GoError)
  | password (p : Password F)
  | floatE (x : F)
  | string (s : String)

/-- One write to a stream: the `fmt` call that made it, with its operands. Formatting itself
belongs to the standard library and is not unfolded. -/
inductive Print (F : Type) where
  | Fprintln (operands : List (Operand F))
  | Fprintf (format : String) (operands : List (Operand F))

/-- What a run leaves behind: the writes to standard output and to standard error in order,
the exit status (`0` when `main` returns, the argument of `os.Exit` otherwise) and the state
of the random source. -/
structure Process (F : Type) where
  stdout : List (Print F)
  stderr : List (Print F)
  exitCode : Nat
  rand : RandomSource

/-- What `main.go` imports from the `spg` library: the two pre-built separator functions, the
outcome of `spg.NewWordList(spg.AgileWords)` and the method `Generate` of a recipe, which may
draw from the random source. -/
structure Spg (F : Type) where
  SFDigits1 : SFFunction F
  SFNone : SFFunction F
  NewWordList : Except GoError (List String)
  Generate : WLRecipe F → RandomSource → Except GoError (Password F) × RandomSource

/-- The call `flags.Parse(os.Args[1:])` of the standard library `flag` package. With no
argument there is no flag to set, and the variables keep the defaults they were registered
with. For a non-empty argument list the outcome is the parameter `parseArgs`: the variables
as set, or on an error what the package wrote to its output, which is standard error since
`main` sets no other and `flags.Usage` prints there too. -/
def flagsParse {F : Type} (parseArgs : Flags → List String → Except (List (Print F)) Flags)
    (defaults : Flags) : List String → Except (List (Print F)) Flags
  | [] => .ok defaults
  | arg :: args => parseArgs defaults (arg :: args)

/-- The function `main` of `main.go`, as a function from the command line and the random
source to what the run leaves behind. -/
def main {F : Type} [Zero F] (lib : Spg F)
    (parseArgs : Flags → List String → Except (List (Print F)) Flags)
    (args : List String) (rand : RandomSource) : Process F :=
  match flagsParse parseArgs defaultFlags args with
  | .error written => { stdout := [], stderr := written, exitCode := 1, rand := rand }
  | .ok fl =>
    match parseSeparator lib.SFDigits1 lib.SFNone fl.separator with
    | (_, some err) =>
      { stdout := [], stderr := [.Fprintln [.error err]], exitCode := 1, rand := rand }
    | (sep, none) =>
      match parseCapitalize fl.capitalize with
      | (_, some err) =>
        { stdout := [], stderr := [.Fprintln [.error err]], exitCode := 1, rand := rand }
      | (cap, none) =>
        match lib.NewWordList with
        | .error err =>
          { stdout := [], stderr := [.Fprintf "error setting up word list: %s\n" [.error err]],
            exitCode := 1, rand := rand }
        | .ok wl =>
          let recipe : WLRecipe F :=
            { Length := fl.size, list := wl, Capitalize := cap, SeparatorFunc := sep }
          match lib.Generate recipe rand with
          | (.error err, after) =>
            { stdout := [],
              stderr := [.Fprintf "error generating password: %s\n" [.error err]],
              exitCode := 1, rand := after }
          | (.ok p, after) =>
            if fl.entropy then
              { stdout := [.Fprintf "Password: %s\nEntropy: %.3f\n" [.password p, .floatE p.Entropy]],
                stderr := [], exitCode := 0, rand := after }
            else
              { stdout := [.Fprintf "%s\n" [.password p]], stderr := [], exitCode := 0,
                rand := after }

/-- Modelled from the spec: the method `Generate` of a recipe, whose code is in the `spg`
library and not in `main.go`. Section 4.5: "size ≤ 0 fails with `InvalidRecipeSize` before any
random draw occurs (no partial side effects)", section 7: "`InvalidRecipeSize` — raised at
Recipe construction/Generate entry when size < 1; fatal for that call, no randomness
consumed". Steps 1 to 5 of section 4.5, which run for a size of at least 1, are the
parameter `steps`. -/
def Generate {F : Type}
    (steps : WLRecipe F → RandomSource → Except GoError (Password F) × RandomSource)
    (recipe : WLRecipe F) (rand : RandomSource) : Except GoError (Password F) × RandomSource :=
  if recipe.Length < 1 then (.error (.generation .InvalidRecipeSize), rand)
  else steps recipe rand

/-- The name `name` selects a fixed-character policy for `text`: `parseSeparator` returns a
function and no error, and any number of successive calls of that function return the pair
`(text, 0)` each and leave the random source as it was. -/
def SelectsFixed {F : Type} [Zero F] (SFDigits1 SFNone : SFFunction F) (name text : String) : Prop :=
  ∃ f : SFFunction F, parseSeparator SFDigits1 SFNone name = (some f, none) ∧
    ∀ (count : Nat) (rand : RandomSource),
      callTimes f count rand = (List.replicate count (text, 0), rand)

/-- The recipe `main` hands to `Generate` for the parsed flags `fl` and the word list `wl`. -/
def recipeOf {F : Type} [Zero F] (lib : Spg F) (fl : Flags) (wl : List String) : WLRecipe F :=
  { Length := fl.size, list := wl, Capitalize := (parseCapitalize fl.capitalize).1,
    SeparatorFunc := (parseSeparator lib.SFDigits1 lib.SFNone fl.separator).1 }

/-- A step of the run after flag parsing fails for the parsed flags `fl`: the separator name
is invalid, the capitalization name is invalid, the word list cannot be set up, or generation
returns an error. -/
def FailsAfterParsing {F : Type} [Zero F] (lib : Spg F) (fl : Flags) (rand : RandomSource) : Prop :=
  (parseSeparator lib.SFDigits1 lib.SFNone fl.separator).2 ≠ none ∨
  (parseCapitalize fl.capitalize).2 ≠ none ∨
  (∃ err, lib.NewWordList = .error err) ∨
  (∃ wl err, lib.NewWordList = .ok wl ∧ (lib.Generate (recipeOf lib fl wl) rand).1 = .error err)

/-- Every step of the run succeeds and `p` is the generated password: the flags parse to
`fl`, both names are valid, the word list is set up and generation returns `p`. -/
def Succeeds {F : Type} [Zero F] (lib : Spg F)
    (parseArgs : Flags → List String → Except (List (Print F)) Flags)
    (args : List String) (rand : RandomSource) (fl : Flags) (p : Password F) : Prop :=
  flagsParse parseArgs defaultFlags args = .ok fl ∧
  (parseSeparator lib.SFDigits1 lib.SFNone fl.separator).2 = none ∧
  (parseCapitalize fl.capitalize).2 = none ∧
  ∃ wl, lib.NewWordList = .ok wl ∧ (lib.Generate (recipeOf lib fl wl) rand).1 = .ok p

/-- The one write to standard output of a run that generated the password `p`. -/
def passwordOutput {F : Type} (fl : Flags) (p : Password F) : List (Print F) :=
  if fl.entropy then [.Fprintf "Password: %s\nEntropy: %.3f\n" [.password p, .floatE p.Entropy]]
  else [.Fprintf "%s\n" [.password p]]

/-- The library `lib` with its method `Generate` replaced by the model of the spec. -/
def withSpecGenerate {F : Type} (lib : Spg F)
    (steps : WLRecipe F → RandomSource → Except GoError (Password F) × RandomSource) : Spg F :=
  { lib with Generate := Generate steps }

/-! ## A concrete library and command line, for evaluating the run -/

/-- A stand-in for the library: a digit separator that draws once, an empty separator, a word
list of four words, and a `Generate` that draws once and returns a fixed password. -/
def demoLib : Spg Int :=
  { SFDigits1 := fun rand => (("7", 3), { rand with draws := rand.draws + 1 })
    SFNone := fun rand => (("", 0), rand)
    NewWordList := .ok ["apple", "banana", "cherry", "date"]
    Generate := fun _ rand => (.ok { text := "apple", Entropy := 2 }, { rand with draws := rand.draws + 1 }) }

/-- Generation for a valid size in the stand-in: one draw, a fixed password. -/
def demoSteps (_ : WLRecipe Int) (rand : RandomSource) :
    Except GoError (Password Int) × RandomSource :=
  (.ok { text := "apple", Entropy := 2 }, { rand with draws := rand.draws + 1 })

/-- Flag parsing in the stand-in: two command lines are understood, any other is an error
reported on standard error. -/
def demoParse (defaults : Flags) : List String → Except (List (Print Int)) Flags
  | ["-size=0"] => .ok { defaults with size := 0 }
  | ["-separator=period"] => .ok { defaults with separator := "period" }
  | _ => .error [.Fprintln [.string "flag provided but not defined"]]

/-- A random source that has made no draw yet. -/
def demoRand : RandomSource := { pending := [3, 1, 4, 1, 5], draws := 0 }

/-! ## Shared lemmas -/

theorem callTimes_makeSeparatorFunc {F : Type} [Zero F] (value : String) (count : Nat)
    (rand : RandomSource) :
    callTimes (makeSeparatorFunc (F := F) value) count rand
      = (List.replicate count (value, 0), rand) := by
  induction count with
  | zero => rfl
  | succ n ih => simp [callTimes, ih, makeSeparatorFunc, List.replicate_succ]

/-! ## The separator policy built by `makeSeparatorFunc` -/

/-- C3: for every string `value`, every call of `makeSeparatorFunc value` returns exactly the
pair `(value, 0)` and leaves the random source untouched, and so do any number of successive
calls: the result does not depend on how often the function was called before. -/
theorem makeSeparatorFunc_pure {F : Type} [Zero F] (value : String) (rand : RandomSource)
    (count : Nat) :
    makeSeparatorFunc (F := F) value rand = ((value, 0), rand) ∧
    callTimes (makeSeparatorFunc (F := F) value) count rand
      = (List.replicate count (value, 0), rand) :=
  ⟨rfl, callTimes_makeSeparatorFunc value count rand⟩

/-! ## `parseSeparator` -/

/-- C1: the usage text documents the class `period` and not `dot`, while `parseSeparator`
rejects `period` with the error `invalid separator: "period"` and accepts `dot`; the names it
accepts are exactly `hyphen`, `space`, `comma`, `dot`, `underscore`, `digit` and `none`. -/
theorem parseSeparator_period_rejected {F : Type} [Zero F] (SFDigits1 SFNone : SFFunction F) :
    documentedSeparators
      = ["hyphen", "space", "comma", "period", "underscore", "digit", "none"] ∧
    parseSeparator SFDigits1 SFNone "period"
      = (none, some (.errorf "invalid separator: %q" "period")) ∧
    "dot" ∉ documentedSeparators ∧
    parseSeparator SFDigits1 SFNone "dot" = (some (makeSeparatorFunc "."), none) ∧
    ∀ separator : String, (parseSeparator SFDigits1 SFNone separator).2 = none ↔
      separator ∈ ["hyphen", "space", "comma", "dot", "underscore", "digit", "none"] := by
  refine ⟨by decide, ?_, by decide, ?_, fun separator => ?_⟩
  · simp [parseSeparator]
  · simp [parseSeparator]
  · unfold parseSeparator
    split_ifs <;> simp [*]

/-- C4: `parseSeparator` maps `hyphen`, `space`, `comma` and `underscore` to fixed-character
policies whose every call returns `("-", 0)`, `(" ", 0)`, `(",", 0)` and `("_", 0)`, maps the
period class, which it accepts under the name `dot`, to a fixed-character policy returning
`(".", 0)`, maps `digit` to `spg.SFDigits1` and `none` to `spg.SFNone`, each with a nil
error. -/
theorem parseSeparator_selects {F : Type} [Zero F] (SFDigits1 SFNone : SFFunction F) :
    SelectsFixed SFDigits1 SFNone "hyphen" "-" ∧
    SelectsFixed SFDigits1 SFNone "space" " " ∧
    SelectsFixed SFDigits1 SFNone "comma" "," ∧
    SelectsFixed SFDigits1 SFNone "underscore" "_" ∧
    SelectsFixed SFDigits1 SFNone "dot" "." ∧
    parseSeparator SFDigits1 SFNone "digit" = (some SFDigits1, none) ∧
    parseSeparator SFDigits1 SFNone "none" = (some SFNone, none) := by
  refine ⟨⟨makeSeparatorFunc "-", ?_, callTimes_makeSeparatorFunc "-"⟩,
    ⟨makeSeparatorFunc " ", ?_, callTimes_makeSeparatorFunc " "⟩,
    ⟨makeSeparatorFunc ",", ?_, callTimes_makeSeparatorFunc ","⟩,
    ⟨makeSeparatorFunc "_", ?_, callTimes_makeSeparatorFunc "_"⟩,
    ⟨makeSeparatorFunc ".", ?_, callTimes_makeSeparatorFunc "."⟩, ?_, ?_⟩ <;>
  simp [parseSeparator]

/-- C9: for every string, `parseSeparator` returns a nil function exactly when it returns a
non-nil error. -/
theorem parseSeparator_nil_iff_error {F : Type} [Zero F] (SFDigits1 SFNone : SFFunction F)
    (separator : String) :
    (parseSeparator SFDigits1 SFNone separator).1 = none ↔
      (parseSeparator SFDigits1 SFNone separator).2 ≠ none := by
  unfold parseSeparator
  split_ifs <;> simp

/-! ## `parseCapitalize` -/

/-- C2: the usage text documents five schemes, `capitalize` is not one of them, and
`parseCapitalize` accepts `capitalize` with a nil error, returning it as the scheme; the
names it accepts are exactly the five documented ones and `capitalize`. -/
theorem parseCapitalize_capitalize_accepted :
    documentedSchemes = ["none", "first", "all", "random", "one"] ∧
    "capitalize" ∉ documentedSchemes ∧
    parseCapitalize "capitalize" = ("capitalize", none) ∧
    ∀ capitalize : String, (parseCapitalize capitalize).2 = none ↔
      capitalize ∈ "capitalize" :: documentedSchemes := by
  refine ⟨by decide, by decide, by decide, fun capitalize => ?_⟩
  have hdoc : documentedSchemes = ["none", "first", "all", "random", "one"] := by decide
  rw [hdoc]
  unfold parseCapitalize
  split_ifs with h
  · simp only [List.mem_cons, List.mem_singleton, List.not_mem_nil, or_false, true_iff]
    tauto
  · simp only [List.mem_cons, List.mem_singleton, List.not_mem_nil, or_false]
    constructor
    · intro h2; cases h2
    · intro h2; exact absurd (by tauto) h

/-! ## The run -/

theorem main_cases {F : Type} [Zero F] (lib : Spg F)
    (parseArgs : Flags → List String → Except (List (Print F)) Flags)
    (args : List String) (rand : RandomSource) :
    (∃ written, flagsParse parseArgs defaultFlags args = .error written ∧
      main lib parseArgs args rand
        = { stdout := [], stderr := written, exitCode := 1, rand := rand }) ∨
    (∃ fl, flagsParse parseArgs defaultFlags args = .ok fl ∧ FailsAfterParsing lib fl rand ∧
      (main lib parseArgs args rand).stdout = [] ∧
      (main lib parseArgs args rand).stderr ≠ [] ∧
      (main lib parseArgs args rand).exitCode = 1) ∨
    (∃ fl p, Succeeds lib parseArgs args rand fl p ∧
      (main lib parseArgs args rand).stdout = passwordOutput fl p ∧
      (main lib parseArgs args rand).stderr = [] ∧
      (main lib parseArgs args rand).exitCode = 0) := by
  unfold main
  cases hparse : flagsParse parseArgs defaultFlags args with
  | error written => exact Or.inl ⟨written, rfl, rfl⟩
  | ok fl =>
    right
    simp only
    rcases hs : parseSeparator lib.SFDigits1 lib.SFNone fl.separator with ⟨sep, _ | serr⟩
    · rcases hc : parseCapitalize fl.capitalize with ⟨cap, _ | cerr⟩
      · cases hw : lib.NewWordList with
        | error werr =>
          exact Or.inl ⟨fl, rfl, Or.inr (Or.inr (Or.inl ⟨werr, hw⟩)), rfl, by simp, rfl⟩
        | ok wl =>
          have hrec : recipeOf lib fl wl
              = { Length := fl.size, list := wl, Capitalize := cap, SeparatorFunc := sep } := by
            simp [recipeOf, hs, hc]
          simp only
          rcases hg : lib.Generate
              { Length := fl.size, list := wl, Capitalize := cap, SeparatorFunc := sep } rand
            with ⟨_ | p, after⟩
          · rename_i gerr
            refine Or.inl ⟨fl, rfl, Or.inr (Or.inr (Or.inr ⟨wl, gerr, hw, ?_⟩)), rfl, by simp, rfl⟩
            rw [hrec, hg]
          · refine Or.inr ⟨fl, p, ⟨hparse, by simp [hs], by simp [hc], wl, hw, ?_⟩, ?_⟩
            · rw [hrec, hg]
            · simp only [passwordOutput]
              split_ifs <;> simp
      · exact Or.inl ⟨fl, rfl, Or.inr (Or.inl (by simp [hc])), rfl, by simp, rfl⟩
    · exact Or.inl ⟨fl, rfl, Or.inl (by simp [hs]), rfl, by simp, rfl⟩

theorem not_failsAfterParsing_of_succeeds {F : Type} [Zero F] (lib : Spg F)
    (parseArgs : Flags → List String → Except (List (Print F)) Flags)
    (args : List String) (rand : RandomSource) (fl : Flags) (p : Password F)
    (h : Succeeds lib parseArgs args rand fl p) : ¬ FailsAfterParsing lib fl rand := by
  obtain ⟨_, hs, hc, wl, hw, hg⟩ := h
  rintro (h1 | h1 | ⟨err, h1⟩ | ⟨wl2, err, h1, h2⟩)
  · exact h1 hs
  · exact h1 hc
  · rw [hw] at h1; cases h1
  · rw [hw] at h1
    cases h1
    rw [hg] at h2
    cases h2

/-- C5: every failure in `main` ends the run with exit status 1 and nothing on standard
output, whether flag parsing fails or a later step does (invalid separator name, invalid
capitalization name, word-list setup error, generation error); a failure after flag parsing
also writes to standard error; and standard output is written only when every step
succeeded, in which case it holds the one print of the password and the exit status is 0. -/
theorem main_failure_exits_silently {F : Type} [Zero F] (lib : Spg F)
    (parseArgs : Flags → List String → Except (List (Print F)) Flags)
    (args : List String) (rand : RandomSource) :
    (∀ written, flagsParse parseArgs defaultFlags args = .error written →
      (main lib parseArgs args rand).exitCode = 1 ∧ (main lib parseArgs args rand).stdout = []) ∧
    (∀ fl, flagsParse parseArgs defaultFlags args = .ok fl → FailsAfterParsing lib fl rand →
      (main lib parseArgs args rand).exitCode = 1 ∧ (main lib parseArgs args rand).stdout = [] ∧
      (main lib parseArgs args rand).stderr ≠ []) ∧
    ((main lib parseArgs args rand).stdout ≠ [] →
      ∃ fl p, Succeeds lib parseArgs args rand fl p ∧
        (main lib parseArgs args rand).stdout = passwordOutput fl p ∧
        (main lib parseArgs args rand).exitCode = 0) := by
  rcases main_cases lib parseArgs args rand with
    ⟨written, hp, hm⟩ | ⟨fl, hp, hf, hout, herr, hexit⟩ | ⟨fl, p, hs, hout, herr, hexit⟩
  · refine ⟨fun _ _ => by simp [hm], fun fl2 hp2 _ => ?_, fun h => ?_⟩
    · rw [hp] at hp2; cases hp2
    · simp [hm] at h
  · refine ⟨fun w hp2 => ?_, fun _ _ _ => ⟨hexit, hout, herr⟩, fun h => absurd hout h⟩
    rw [hp] at hp2; cases hp2
  · refine ⟨fun w hp2 => ?_, fun fl2 hp2 hf => ?_, fun _ => ⟨fl, p, hs, hout, hexit⟩⟩
    · rw [hs.1] at hp2; cases hp2
    · rw [hs.1] at hp2
      cases hp2
      exact absurd hf (not_failsAfterParsing_of_succeeds lib parseArgs args rand fl p hs)

/-- C6: the defaults the usage text documents are the defaults the flags are registered
with, size 5, separator `hyphen` and capitalization `one`; with no options the flags parse to
them; `parseSeparator "hyphen"` and `parseCapitalize "one"` succeed; and a run with no
options gets past option validation: it ends at the word-list setup, or at the generation of
a recipe of size 5 with the fixed separator `-` and the scheme `one`, or prints the
password. -/
theorem defaults_valid {F : Type} [Zero F] (lib : Spg F)
    (parseArgs : Flags → List String → Except (List (Print F)) Flags) (rand : RandomSource) :
    documentedDefaults
      = [toString defaultFlags.size, defaultFlags.separator, defaultFlags.capitalize] ∧
    defaultFlags = { size := 5, separator := "hyphen", capitalize := "one", entropy := false } ∧
    flagsParse parseArgs defaultFlags [] = .ok defaultFlags ∧
    parseSeparator lib.SFDigits1 lib.SFNone "hyphen" = (some (makeSeparatorFunc "-"), none) ∧
    parseCapitalize "one" = ("one", none) ∧
    ((∃ err, lib.NewWordList = .error err ∧
        main lib parseArgs [] rand
          = { stdout := [],
              stderr := [.Fprintf "error setting up word list: %s\n" [.error err]],
              exitCode := 1, rand := rand }) ∨
      (∃ wl err after, lib.NewWordList = .ok wl ∧
        lib.Generate { Length := 5, list := wl, Capitalize := "one",
                       SeparatorFunc := some (makeSeparatorFunc "-") } rand
          = (.error err, after) ∧
        main lib parseArgs [] rand
          = { stdout := [],
              stderr := [.Fprintf "error generating password: %s\n" [.error err]],
              exitCode := 1, rand := after }) ∨
      (∃ wl p after, lib.NewWordList = .ok wl ∧
        lib.Generate { Length := 5, list := wl, Capitalize := "one",
                       SeparatorFunc := some (makeSeparatorFunc "-") } rand
          = (.ok p, after) ∧
        main lib parseArgs [] rand
          = { stdout := [.Fprintf "%s\n" [.password p]], stderr := [], exitCode := 0,
              rand := after })) := by
  have hs : parseSeparator lib.SFDigits1 lib.SFNone "hyphen"
      = (some (makeSeparatorFunc "-"), none) := by simp [parseSeparator]
  have hc : parseCapitalize "one" = ("one", none) := by decide
  refine ⟨by decide, rfl, rfl, hs, hc, ?_⟩
  simp only [main, flagsParse, defaultFlags, hs, hc]
  cases hw : lib.NewWordList with
  | error werr => exact Or.inl ⟨werr, rfl, rfl⟩
  | ok wl =>
    right
    simp only
    rcases hg : lib.Generate ⟨5, wl, "one", some (makeSeparatorFunc "-")⟩ rand
      with ⟨_ | p, after⟩
    · rename_i gerr
      exact Or.inl ⟨wl, gerr, after, rfl, hg, by simp [hg]⟩
    · exact Or.inr ⟨wl, p, after, rfl, hg, by simp [hg]⟩

/-- Witness of C5: the command line `-separator=period` parses, the separator name is then
rejected, and the run exits with status 1, an empty standard output and a message on
standard error. -/
theorem main_failure_exits_silently_witness :
    FailsAfterParsing demoLib { defaultFlags with separator := "period" } demoRand ∧
    (main demoLib demoParse ["-separator=period"] demoRand).exitCode = 1 ∧
    (main demoLib demoParse ["-separator=period"] demoRand).stdout = [] ∧
    (main demoLib demoParse ["-separator=period"] demoRand).stderr ≠ [] :=
  have hf : FailsAfterParsing demoLib { defaultFlags with separator := "period" } demoRand :=
    Or.inl (by simp [parseSeparator])
  ⟨hf, (main_failure_exits_silently demoLib demoParse ["-separator=period"] demoRand).2.1
    { defaultFlags with separator := "period" } rfl hf⟩

/-- C7: with `Generate` as the spec describes it, a recipe of size 0 or less fails with
`InvalidRecipeSize` and leaves the random source as it was; and a run whose flags parse to
such a size exits with status 1, writes no password, makes no random draw, and, when both
names are valid and the word list is set up, reports the generation error
`InvalidRecipeSize` on standard error. -/
theorem nonpositive_size_fails {F : Type} [Zero F] (lib : Spg F)
    (steps : WLRecipe F → RandomSource → Except GoError (Password F) × RandomSource)
    (parseArgs : Flags → List String → Except (List (Print F)) Flags)
    (args : List String) (rand : RandomSource) (fl : Flags)
    (hparse : flagsParse parseArgs defaultFlags args = .ok fl) (hsize : fl.size < 1) :
    (∀ (recipe : WLRecipe F) (r : RandomSource), recipe.Length = fl.size →
      Generate steps recipe r = (.error (.generation .InvalidRecipeSize), r)) ∧
    (main (withSpecGenerate lib steps) parseArgs args rand).exitCode = 1 ∧
    (main (withSpecGenerate lib steps) parseArgs args rand).stdout = [] ∧
    (main (withSpecGenerate lib steps) parseArgs args rand).rand = rand ∧
    ((parseSeparator lib.SFDigits1 lib.SFNone fl.separator).2 = none →
      (parseCapitalize fl.capitalize).2 = none → (∃ wl, lib.NewWordList = .ok wl) →
      (main (withSpecGenerate lib steps) parseArgs args rand).stderr
        = [.Fprintf "error generating password: %s\n"
            [.error (.generation .InvalidRecipeSize)]]) := by
  have hgen : ∀ (recipe : WLRecipe F) (r : RandomSource), recipe.Length = fl.size →
      Generate steps recipe r = (.error (.generation .InvalidRecipeSize), r) := by
    intro recipe r hlen
    simp [Generate, hlen, hsize]
  refine ⟨hgen, ?_⟩
  simp only [main, hparse, withSpecGenerate]
  rcases hs : parseSeparator lib.SFDigits1 lib.SFNone fl.separator with ⟨sep, _ | serr⟩
  · rcases hc : parseCapitalize fl.capitalize with ⟨cap, _ | cerr⟩
    · cases hw : lib.NewWordList with
      | error werr => simp
      | ok wl => simp [hgen ⟨fl.size, wl, cap, sep⟩ rand rfl]
    · simp
  · simp

/-- Witness of C7: the command line `-size=0` parses to size 0, and the run exits with
status 1, writes no password and leaves the random source with no draw made. -/
theorem nonpositive_size_fails_witness :
    flagsParse demoParse defaultFlags ["-size=0"] = .ok { defaultFlags with size := 0 } ∧
    ({ defaultFlags with size := 0 } : Flags).size < 1 ∧
    (main (withSpecGenerate demoLib demoSteps) demoParse ["-size=0"] demoRand).exitCode = 1 ∧
    (main (withSpecGenerate demoLib demoSteps) demoParse ["-size=0"] demoRand).stdout = [] ∧
    (main (withSpecGenerate demoLib demoSteps) demoParse ["-size=0"] demoRand).rand = demoRand :=
  have h := nonpositive_size_fails demoLib demoSteps demoParse ["-size=0"] demoRand
    { defaultFlags with size := 0 } rfl (by decide)
  ⟨rfl, by decide, h.2.1, h.2.2.1, h.2.2.2.1⟩

end Mkpw
